import Mathlib

/-!
Verification of the Symbol SDK example transaction-construction core
(`example.py`): UTF-8 message encoding with the leading zero marker byte,
SHA3-256 based metadata key derivation, deadline arithmetic, mosaic flag
bitsets, aggregate composition, and the HTTP status contracts of the
network queries and of transaction announcement.

The external `symbolchain` facade (binary codec, hashing of embedded
transaction sets, signing) and the HTTP transport are black boxes of the
source; where a claim depends on them they are modelled from the spec, as
noted on the corresponding definitions.  Clock reads
(`datetime.datetime.today()`, `time.mktime(... .timetuple())`) are passed
in explicitly as an integer `now` of whole seconds.
-/

set_option maxRecDepth 100000

/-- UTF-8 encoding of a single Unicode code point, as byte values.  This is
the standard UTF-8 algorithm that Python's `str.encode("utf8")` implements
for each code point of the string. -/
def utf8EncodeCp (n : Nat) : List Nat :=
  if n < 0x80 then [n]
  else if n < 0x800 then [0xC0 + n / 64, 0x80 + n % 64]
  else if n < 0x10000 then [0xE0 + n / 4096, 0x80 + n / 64 % 64, 0x80 + n % 64]
  else [0xF0 + n / 262144, 0x80 + n / 4096 % 64, 0x80 + n / 64 % 64, 0x80 + n % 64]

/-- UTF-8 encoding of a sequence of characters: Python's
`text.encode("utf8")` as a list of byte values. -/
def utf8Encode (s : List Char) : List Nat :=
  (s.map Char.toNat).flatMap utf8EncodeCp

/-- UTF-8 decoder, one byte at a time; `need` counts the continuation
bytes still expected for the current code point and `acc` holds its
partial value. -/
def utf8DecodeAux : List Nat → Nat → Nat → Option (List Nat)
  | [], need, _ => if need = 0 then some [] else none
  | b :: rest, 0, _ =>
    if b < 0x80 then (utf8DecodeAux rest 0 0).map (fun t => b :: t)
    else if b < 0xC0 then none
    else if b < 0xE0 then utf8DecodeAux rest 1 (b - 0xC0)
    else if b < 0xF0 then utf8DecodeAux rest 2 (b - 0xE0)
    else if b < 0xF8 then utf8DecodeAux rest 3 (b - 0xF0)
    else none
  | b :: rest, 1, acc =>
    if 0x80 ≤ b ∧ b < 0xC0 then
      (utf8DecodeAux rest 0 0).map (fun t => (acc * 64 + (b - 0x80)) :: t)
    else none
  | b :: rest, need + 2, acc =>
    if 0x80 ≤ b ∧ b < 0xC0 then utf8DecodeAux rest (need + 1) (acc * 64 + (b - 0x80))
    else none

/-- UTF-8 decoding of a byte sequence to code points. -/
def utf8DecodeCps (l : List Nat) : Option (List Nat) := utf8DecodeAux l 0 0

/-- Rebuild characters from code points, checking Unicode validity
(below the surrogate range, or between the surrogates and 0x110000). -/
def codepointsToChars : List Nat → Option (List Char)
  | [] => some []
  | n :: ns =>
    if n < 0xD800 ∨ (0xDFFF < n ∧ n < 0x110000) then
      (codepointsToChars ns).map (fun l => Char.ofNat n :: l)
    else none

/-- The message/value encoding of the builder: one zero marker byte
followed by the UTF-8 bytes of the text.  Models
`bytes(1) + message.encode("utf8")` from `example.py`. -/
def encodeMessage (s : String) : List Nat := 0 :: utf8Encode s.data

/-- Strip the leading marker byte (which must be 0), then UTF-8 decode the
remainder back to a string. -/
def decodeMessage (bs : List Nat) : Option String :=
  match bs with
  | 0 :: rest =>
    (utf8DecodeCps rest).bind (fun cps => (codepointsToChars cps).map (fun l => String.mk l))
  | _ => none

/-- Rotate a 64-bit lane left by `n` bits. -/
def rotl64 (x n : Nat) : Nat :=
  ((x <<< n) ||| (x >>> (64 - n))) % (2 ^ 64)

/-- Lane `(x, y)` of a Keccak state held as a flat list of 25 lanes. -/
def lane (A : List Nat) (x y : Nat) : Nat := A.getD (x + 5 * y) 0

/-- Keccak θ step. -/
def keccakTheta (A : List Nat) : List Nat :=
  let C := fun x => lane A x 0 ^^^ lane A x 1 ^^^ lane A x 2 ^^^ lane A x 3 ^^^ lane A x 4
  let D := fun x => C ((x + 4) % 5) ^^^ rotl64 (C ((x + 1) % 5)) 1
  (List.range 25).map (fun i => A.getD i 0 ^^^ D (i % 5))

/-- Keccak ρ rotation offsets, indexed `x + 5 * y`, generated by the
standard coordinate walk: starting from lane (1, 0), lane t of the walk
gets offset (t+1)(t+2)/2 mod 64 and the walk moves (x, y) to
(y, 2x + 3y mod 5); lane (0, 0) keeps offset 0. -/
def rhoOffsets : List Nat :=
  ((List.range 24).foldl (fun (s : Nat × Nat × List Nat) t =>
      (s.2.1, (2 * s.1 + 3 * s.2.1) % 5,
       s.2.2.set (s.1 + 5 * s.2.1) (((t + 1) * (t + 2) / 2) % 64)))
    (1, 0, List.replicate 25 0)).2.2

/-- Keccak combined ρ and π steps. -/
def keccakRhoPi (A : List Nat) : List Nat :=
  (List.range 25).map (fun i =>
    let xp := i % 5
    let yp := i / 5
    let xs := (xp + 3 * yp) % 5
    rotl64 (lane A xs xp) (rhoOffsets.getD (xs + 5 * xp) 0))

/-- Keccak χ step. -/
def keccakChi (B : List Nat) : List Nat :=
  (List.range 25).map (fun i =>
    let x := i % 5
    let y := i / 5
    lane B x y ^^^ ((lane B ((x + 1) % 5) y ^^^ 0xFFFFFFFFFFFFFFFF) &&& lane B ((x + 2) % 5) y))

/-- One step of the degree-8 LFSR (taps x^8 + x^6 + x^5 + x^4 + 1) that
generates the Keccak round-constant bits. -/
def keccakLfsrStep (r : Nat) : Nat :=
  if r &&& 0x80 = 0 then (r <<< 1) &&& 0xFF else ((r <<< 1) ^^^ 0x71) &&& 0xFF

/-- Bit t of the Keccak round-constant bit stream: the low bit of the
LFSR state after t steps from 1. -/
def keccakRcBit (t : Nat) : Nat := (keccakLfsrStep^[t] 1) &&& 1

/-- Keccak ι round constant of round i: bit j of the stream lands at lane
position 2^j - 1 for j = 0..6. -/
def keccakRC (i : Nat) : Nat :=
  (List.range 7).foldl (fun acc j => acc ^^^ (keccakRcBit (7 * i + j) <<< (2 ^ j - 1))) 0

/-- The 24 Keccak ι round constants. -/
def keccakRoundConstants : List Nat := (List.range 24).map keccakRC

/-- Keccak ι step. -/
def keccakIota (rc : Nat) (A : List Nat) : List Nat :=
  (List.range 25).map (fun i => if i = 0 then A.getD 0 0 ^^^ rc else A.getD i 0)

/-- The Keccak-f[1600] permutation. -/
def keccakF (A : List Nat) : List Nat :=
  keccakRoundConstants.foldl (fun A rc => keccakIota rc (keccakChi (keccakRhoPi (keccakTheta A)))) A

/-- SHA3 padding (`pad10*1` with the 0x06 domain byte) to a multiple of
the 136-byte rate. -/
def sha3Pad (msg : List Nat) : List Nat :=
  let m := msg.length % 136
  if m = 135 then msg ++ [0x86]
  else msg ++ [0x06] ++ List.replicate (134 - m) 0 ++ [0x80]

/-- Interpret a byte list as an unsigned little-endian integer; models
Python's `int.from_bytes(bs, "little")`. -/
def intFromBytesLE (bs : List Nat) : Nat :=
  bs.foldr (fun b acc => b + 256 * acc) 0

/-- Absorb one 136-byte block into the Keccak state. -/
def absorbBlock (A : List Nat) (block : List Nat) : List Nat :=
  keccakF ((List.range 25).map (fun i =>
    A.getD i 0 ^^^ (if i < 17 then intFromBytesLE ((block.drop (8 * i)).take 8) else 0)))

/-- SHA3-256 of a byte sequence, as the 32 digest bytes.  Models the
`sha3.sha3_256` hasher used by `KeyGenerator.generate_uint64_key`. -/
def sha3_256 (msg : List Nat) : List Nat :=
  let p := sha3Pad msg
  let final := (List.range (p.length / 136)).foldl
    (fun A i => absorbBlock A ((p.drop (136 * i)).take 136)) (List.replicate 25 0)
  (List.range 32).map (fun i => (final.getD (i / 8) 0 >>> (8 * (i % 8))) % 256)

/-- `KeyGenerator.generate_uint64_key`: SHA3-256 digest of the UTF-8
bytes of the input, first 8 digest bytes as a little-endian u64. -/
def KeyGenerator.generate_uint64_key (input : String) : Nat :=
  intFromBytesLE ((sha3_256 (utf8Encode input.data)).take 8)

/-- A signer's public key; a black-box value that the builder passes
through unchanged. -/
structure PublicKey where
  key : Nat
deriving DecidableEq

/-- A recipient/target address; a black-box value passed through
unchanged. -/
structure Address where
  addr : Nat
deriving DecidableEq

/-- A mosaic entry of a transfer: `{"mosaic_id": ..., "amount": ...}`. -/
structure Mosaic where
  mosaic_id : Nat
  amount : Nat
deriving DecidableEq

/-- An Ed25519 key pair; only its public half is observable here. -/
structure KeyPair where
  private_key : Nat
  public_key : PublicKey
deriving DecidableEq

/-- The transfer transaction record assembled by
`create_transfer_transaction`. -/
structure TransferTransaction where
  signer_public_key : PublicKey
  deadline : Int
  fee : Nat
  recipient_address : Address
  mosaics : List Mosaic
  message : List Nat
deriving DecidableEq

/-- An embedded transfer (no deadline or fee of its own). -/
structure EmbeddedTransferTransaction where
  signer_public_key : PublicKey
  recipient_address : Address
  mosaics : List Mosaic
  message : List Nat
deriving DecidableEq

/-- An embedded mosaic-metadata transaction (no deadline or fee of its
own). -/
structure EmbeddedMosaicMetadataTransaction where
  signer_public_key : PublicKey
  target_address : Address
  target_mosaic_id : Nat
  scoped_metadata_key : Nat
  value : List Nat
  value_size_delta : Nat
deriving DecidableEq

/-- The embedded transaction kinds this program places inside
aggregates. -/
inductive EmbeddedTransaction where
  | transfer (t : EmbeddedTransferTransaction)
  | mosaicMetadata (t : EmbeddedMosaicMetadataTransaction)
deriving DecidableEq

/-- An aggregate-complete transaction. -/
structure AggregateCompleteTransaction where
  signer_public_key : PublicKey
  fee : Nat
  deadline : Int
  transactions_hash : List EmbeddedTransaction
  transactions : List EmbeddedTransaction
deriving DecidableEq

/-- Modelled from the spec: the facade's `hash_embedded_transactions` is
external (`symbolchain`); the spec specifies it as a commitment over the
ordered sequence of embedded transactions — deterministic, and any change
of inner content or order changes it.  It is modelled as the injective
function taking the sequence to its canonical form (the sequence
itself). -/
def SymbolFacade.hash_embedded_transactions (txs : List EmbeddedTransaction) :
    List EmbeddedTransaction := txs

/-- The mosaic definition transaction record. -/
structure MosaicDefinitionTransaction where
  signer_public_key : PublicKey
  deadline : Int
  fee : Nat
  duration : Nat
  nonce : Int
  flags : Nat
  divisibility : Nat
deriving DecidableEq

/-- Mosaic supply change directions. -/
inductive MosaicSupplyChangeAction where
  | decrease
  | increase
deriving DecidableEq

/-- The mosaic supply change transaction record. -/
structure MosaicSupplyChangeTransaction where
  signer_public_key : PublicKey
  deadline : Int
  fee : Nat
  mosaic_id : Nat
  delta : Nat
  action : MosaicSupplyChangeAction
deriving DecidableEq

/-- The transaction kinds that can be signed and announced. -/
inductive Transaction where
  | transfer (t : TransferTransaction)
  | aggregateComplete (t : AggregateCompleteTransaction)
  | mosaicDefinition (t : MosaicDefinitionTransaction)
  | mosaicSupplyChange (t : MosaicSupplyChangeTransaction)
deriving DecidableEq

/-- Modelled from the spec: the facade's `hash_transaction` is external
(`symbolchain`); the spec specifies it as the canonical content hash of
the transaction, used as its identifier.  Modelled as the injective
commitment taking the transaction to itself. -/
def SymbolFacade.hash_transaction (tx : Transaction) : Transaction := tx

/-- `MosaicFlags.NONE` of `symbolchain.sc`. -/
def MosaicFlags.NONE : Nat := 0

/-- `MosaicFlags.SUPPLY_MUTABLE` of `symbolchain.sc` (bit 0). -/
def MosaicFlags.SUPPLY_MUTABLE : Nat := 1

/-- `MosaicFlags.TRANSFERABLE` of `symbolchain.sc` (bit 1). -/
def MosaicFlags.TRANSFERABLE : Nat := 2

/-- `MosaicFlags.RESTRICTABLE` of `symbolchain.sc` (bit 2). -/
def MosaicFlags.RESTRICTABLE : Nat := 4

/-- `MosaicFlags.REVOKABLE` of `symbolchain.sc` (bit 3). -/
def MosaicFlags.REVOKABLE : Nat := 8

/-- `NonceGenerator.generate`: the wall clock truncated to whole seconds,
passed in as `now`. -/
def NonceGenerator.generate (now : Int) : Int := now

/-- `ConfigurationError`: the `Exception("Unknown network name.")` raised
by the constructor. -/
structure ConfigurationError where
  message : String
deriving DecidableEq

/-- `AnnounceError`: the `Exception("status code is ...")` raised by
`sign_and_announce_transaction`; carries the offending status. -/
structure AnnounceError where
  status_code : Nat
deriving DecidableEq

/-- Failures of the network-properties queries: `NetworkQueryError` is the
`Exception("status code is ...")` raised on a bad transport status, and
`valueError` models Python's `ValueError` from `int(...)` on malformed
field text. -/
inductive QueryFailure where
  | networkQueryError (status_code : Nat)
  | valueError
deriving DecidableEq

/-- Decimal value of a digit string. -/
def decimalVal (ds : List Char) : Nat :=
  ds.foldl (fun a c => a * 10 + (c.toNat - 48)) 0

/-- Python's `int(s)` on a string: optional minus sign then decimal
digits; `none` models the `ValueError` raise. -/
def pyInt? (s : List Char) : Option Int :=
  match s with
  | [] => none
  | c :: cs =>
    if c = '-' then
      if cs ≠ [] ∧ cs.all Char.isDigit then some (-(Int.ofNat (decimalVal cs))) else none
    else if (c :: cs).all Char.isDigit then some (Int.ofNat (decimalVal (c :: cs))) else none

/-- Hexadecimal digit test. -/
def isHexDigitC (c : Char) : Bool :=
  c.isDigit || ('a' ≤ c && c ≤ 'f') || ('A' ≤ c && c ≤ 'F')

/-- Value of one hexadecimal digit. -/
def hexDigitVal (c : Char) : Nat :=
  if c.isDigit then c.toNat - 48
  else if 'a' ≤ c && c ≤ 'f' then c.toNat - 87
  else c.toNat - 55

/-- Value of a hexadecimal digit string. -/
def hexVal (ds : List Char) : Nat :=
  ds.foldl (fun a c => a * 16 + hexDigitVal c) 0

/-- Unsigned part of Python's `int(s, 16)`: optional `0x`/`0X` marker then
hexadecimal digits. -/
def pyHexCore? : List Char → Option Nat
  | '0' :: x :: rest =>
    if x = 'x' ∨ x = 'X' then
      if rest ≠ [] ∧ rest.all isHexDigitC then some (hexVal rest) else none
    else if ('0' :: x :: rest).all isHexDigitC then some (hexVal ('0' :: x :: rest)) else none
  | t => if t ≠ [] ∧ t.all isHexDigitC then some (hexVal t) else none

/-- Python's `int(s, 16)`: optional minus sign then the unsigned core;
`none` models the `ValueError` raise. -/
def pyIntBase16? (s : List Char) : Option Int :=
  match s with
  | [] => none
  | c :: cs =>
    if c = '-' then (pyHexCore? cs).map (fun n => -(Int.ofNat n))
    else (pyHexCore? (c :: cs)).map (fun n => Int.ofNat n)

/-- The apostrophe character stripped by
`contents["chain"]["currencyMosaicId"].replace(...)`. -/
def quoteChar : Char := Char.ofNat 39

/-- The two fields `example.py` extracts from the parsed
`GET /network/properties` JSON body: `network.epochAdjustment` and
`chain.currencyMosaicId`, both strings. -/
structure NetworkPropertiesResponse where
  epochAdjustment : String
  currencyMosaicId : String
deriving DecidableEq

/-- The REST client, bound to a node base URL. -/
structure CatapultRESTAPI where
  node_url : String
deriving DecidableEq

/-- `CatapultRESTAPI.get_epoch_adjustment`: raise unless the GET status is
exactly 200, then strip every `s` from the epoch-adjustment field and
parse it as a decimal integer.  The transport is modelled by passing in
the response status and the extracted JSON fields. -/
def CatapultRESTAPI.get_epoch_adjustment (_api : CatapultRESTAPI) (status_code : Nat)
    (body : NetworkPropertiesResponse) : Except QueryFailure Int :=
  if status_code ≠ 200 then .error (.networkQueryError status_code)
  else
    match pyInt? (body.epochAdjustment.data.filter (fun c => c ≠ 's')) with
    | some v => .ok v
    | none => .error .valueError

/-- `CatapultRESTAPI.get_currency_mosaic_id`: raise unless the GET status
is exactly 200, then strip every apostrophe from the currency-mosaic-id
field and parse it base 16. -/
def CatapultRESTAPI.get_currency_mosaic_id (_api : CatapultRESTAPI) (status_code : Nat)
    (body : NetworkPropertiesResponse) : Except QueryFailure Int :=
  if status_code ≠ 200 then .error (.networkQueryError status_code)
  else
    match pyIntBase16? (body.currencyMosaicId.data.filter (fun c => c ≠ quoteChar)) with
    | some v => .ok v
    | none => .error .valueError

/-- The builder's configuration, all of it assigned in `__init__`:
network name, node URL, epoch adjustment, max fee, expiration window in
hours, and the derived block-explorer URL. -/
structure SymbolTransactionCreator where
  network_name : String
  node_url : String
  epoch_adjustment : Int
  max_fee : Nat
  expiration_hour : Int
  explorer_url : String
deriving DecidableEq

/-- `SymbolTransactionCreator.__init__`: stores the configuration and
selects the explorer URL, raising `ConfigurationError` when the network
name is neither `mainnet` nor `testnet`.  The constructor performs no
network round trip, so no transport input appears here. -/
def SymbolTransactionCreator.init (network_name node_url : String) (epoch_adjustment : Int)
    (max_fee : Nat) (expiration_hour : Int) :
    Except ConfigurationError SymbolTransactionCreator :=
  if network_name = "mainnet" then
    .ok { network_name, node_url, epoch_adjustment, max_fee, expiration_hour,
          explorer_url := "https://symbol.fyi/transactions/" }
  else if network_name = "testnet" then
    .ok { network_name, node_url, epoch_adjustment, max_fee, expiration_hour,
          explorer_url := "https://testnet.symbol.fyi/transactions/" }
  else .error { message := "Unknown network name." }

/-- `SymbolTransactionCreator._get_deadline`: whole-second wall clock plus
the expiration window, minus the epoch adjustment, in milliseconds. -/
def SymbolTransactionCreator.get_deadline (st : SymbolTransactionCreator) (now : Int) : Int :=
  (now + st.expiration_hour * 3600 - st.epoch_adjustment) * 1000

/-- `create_transfer_transaction`.  Methods of the source mutate no
attribute, so each is embedded state-passing style, returning the
transaction together with the builder state after the call. -/
def SymbolTransactionCreator.create_transfer_transaction (st : SymbolTransactionCreator)
    (signer_public_key : PublicKey) (recipient_address : Address) (mosaics : List Mosaic)
    (message : String) (now : Int) : TransferTransaction × SymbolTransactionCreator :=
  ({ signer_public_key,
     deadline := st.get_deadline now,
     fee := st.max_fee,
     recipient_address,
     mosaics,
     message := encodeMessage message }, st)

/-- `create_aggregate_transfer_transaction`: one embedded transfer per
message, in input order, wrapped in one aggregate-complete transaction
whose `transactions_hash` is the facade's hash of the inner sequence. -/
def SymbolTransactionCreator.create_aggregate_transfer_transaction (st : SymbolTransactionCreator)
    (signer_public_key : PublicKey) (recipient_address : Address) (mosaics : List Mosaic)
    (messages : List String) (now : Int) :
    AggregateCompleteTransaction × SymbolTransactionCreator :=
  let inner_txs : List EmbeddedTransaction := messages.map (fun message =>
    .transfer { signer_public_key, recipient_address, mosaics,
                message := encodeMessage message })
  ({ signer_public_key,
     fee := st.max_fee,
     deadline := st.get_deadline now,
     transactions_hash := SymbolFacade.hash_embedded_transactions inner_txs,
     transactions := inner_txs }, st)

/-- `create_mosaic_definition_transaction`: accumulates the flag bitset
with the conditional or-chain of the source, generates the nonce from the
clock, and passes divisibility and duration through. -/
def SymbolTransactionCreator.create_mosaic_definition_transaction (st : SymbolTransactionCreator)
    (signer_public_key : PublicKey) (divisibility duration : Nat)
    (transferable supply_mutable restrictable revokable : Bool) (now : Int) :
    MosaicDefinitionTransaction × SymbolTransactionCreator :=
  let flags := MosaicFlags.NONE
  let flags := if transferable then flags ||| MosaicFlags.TRANSFERABLE else flags
  let flags := if supply_mutable then flags ||| MosaicFlags.SUPPLY_MUTABLE else flags
  let flags := if restrictable then flags ||| MosaicFlags.RESTRICTABLE else flags
  let flags := if revokable then flags ||| MosaicFlags.REVOKABLE else flags
  ({ signer_public_key,
     deadline := st.get_deadline now,
     fee := st.max_fee,
     duration,
     nonce := NonceGenerator.generate now,
     flags,
     divisibility }, st)

/-- `create_mosaic_supply_change_transaction`: fixed `INCREASE` action. -/
def SymbolTransactionCreator.create_mosaic_supply_change_transaction
    (st : SymbolTransactionCreator) (signer_public_key : PublicKey) (mosaic_id : Nat)
    (supply_units : Nat) (now : Int) :
    MosaicSupplyChangeTransaction × SymbolTransactionCreator :=
  ({ signer_public_key,
     deadline := st.get_deadline now,
     fee := st.max_fee,
     mosaic_id,
     delta := supply_units,
     action := .increase }, st)

/-- `create_mosaic_metadata_transaction`: one embedded mosaic-metadata
transaction — scoped key derived by `KeyGenerator`, value encoded with the
zero marker byte, `value_size_delta` the encoded length — always wrapped
in an aggregate-complete transaction. -/
def SymbolTransactionCreator.create_mosaic_metadata_transaction (st : SymbolTransactionCreator)
    (signer_public_key : PublicKey) (target_address : Address) (target_mosaic_id : Nat)
    (scoped_metadata_key : String) (value : String) (now : Int) :
    AggregateCompleteTransaction × SymbolTransactionCreator :=
  let tx : EmbeddedMosaicMetadataTransaction :=
    { signer_public_key,
      target_address,
      target_mosaic_id,
      scoped_metadata_key := KeyGenerator.generate_uint64_key scoped_metadata_key,
      value := encodeMessage value,
      value_size_delta := (encodeMessage value).length }
  ({ signer_public_key,
     fee := st.max_fee,
     deadline := st.get_deadline now,
     transactions_hash := SymbolFacade.hash_embedded_transactions [.mosaicMetadata tx],
     transactions := [.mosaicMetadata tx] }, st)

/-- `sign_and_announce_transaction`: sign, PUT to `/transactions`, raise
`AnnounceError` when the response status is not 202, else return the
content hash computed from the signed transaction.  The transport is
modelled by passing in the node's response status. -/
def SymbolTransactionCreator.sign_and_announce_transaction (st : SymbolTransactionCreator)
    (transaction : Transaction) (_key_pair : KeyPair) (response_status : Nat) :
    Except AnnounceError Transaction × SymbolTransactionCreator :=
  (if response_status ≠ 202 then .error { status_code := response_status }
   else .ok (SymbolFacade.hash_transaction transaction), st)

/-- One call a caller can make on a builder instance, with its
arguments. -/
inductive BuilderOp where
  | transferOp (signer : PublicKey) (recipient : Address) (mosaics : List Mosaic)
      (message : String)
  | aggregateTransferOp (signer : PublicKey) (recipient : Address) (mosaics : List Mosaic)
      (messages : List String)
  | mosaicDefinitionOp (signer : PublicKey) (divisibility duration : Nat)
      (transferable supply_mutable restrictable revokable : Bool)
  | mosaicSupplyChangeOp (signer : PublicKey) (mosaic_id supply_units : Nat)
  | mosaicMetadataOp (signer : PublicKey) (target : Address) (target_mosaic_id : Nat)
      (key value : String)
  | announceOp (tx : Transaction) (key_pair : KeyPair) (response_status : Nat)

/-- What one builder call produced. -/
inductive BuilderOutput where
  | transferOut (t : TransferTransaction)
  | aggregateOut (t : AggregateCompleteTransaction)
  | definitionOut (t : MosaicDefinitionTransaction)
  | supplyChangeOut (t : MosaicSupplyChangeTransaction)
  | announceOut (r : Except AnnounceError Transaction)

/-- Dispatch one call on the builder, at clock value `now`. -/
def applyOp (st : SymbolTransactionCreator) (op : BuilderOp) (now : Int) :
    BuilderOutput × SymbolTransactionCreator :=
  match op with
  | .transferOp s r m msg =>
    (.transferOut (st.create_transfer_transaction s r m msg now).1,
     (st.create_transfer_transaction s r m msg now).2)
  | .aggregateTransferOp s r m msgs =>
    (.aggregateOut (st.create_aggregate_transfer_transaction s r m msgs now).1,
     (st.create_aggregate_transfer_transaction s r m msgs now).2)
  | .mosaicDefinitionOp s d du t sm re rv =>
    (.definitionOut (st.create_mosaic_definition_transaction s d du t sm re rv now).1,
     (st.create_mosaic_definition_transaction s d du t sm re rv now).2)
  | .mosaicSupplyChangeOp s mid su =>
    (.supplyChangeOut (st.create_mosaic_supply_change_transaction s mid su now).1,
     (st.create_mosaic_supply_change_transaction s mid su now).2)
  | .mosaicMetadataOp s tgt tmid k v =>
    (.aggregateOut (st.create_mosaic_metadata_transaction s tgt tmid k v now).1,
     (st.create_mosaic_metadata_transaction s tgt tmid k v now).2)
  | .announceOp tx kp status =>
    (.announceOut (st.sign_and_announce_transaction tx kp status).1,
     (st.sign_and_announce_transaction tx kp status).2)

/-- Run a sequence of calls on one builder instance; each list entry pairs
the call with the clock value at which it happens. -/
def runOps (st : SymbolTransactionCreator) :
    List (BuilderOp × Int) → List BuilderOutput × SymbolTransactionCreator
  | [] => ([], st)
  | p :: rest =>
    ((applyOp st p.1 p.2).1 :: (runOps (applyOp st p.1 p.2).2 rest).1,
     (runOps (applyOp st p.1 p.2).2 rest).2)

/-- The declared fee of the transaction a call produced, when it produced
one. -/
def outputFee : BuilderOutput → Option Nat
  | .transferOut t => some t.fee
  | .aggregateOut t => some t.fee
  | .definitionOut t => some t.fee
  | .supplyChangeOut t => some t.fee
  | .announceOut _ => none

/-- The stamped deadline of the transaction a call produced, when it
produced one. -/
def outputDeadline : BuilderOutput → Option Int
  | .transferOut t => some t.deadline
  | .aggregateOut t => some t.deadline
  | .definitionOut t => some t.deadline
  | .supplyChangeOut t => some t.deadline
  | .announceOut _ => none

theorem char_toNat_lt (c : Char) : c.toNat < 0x110000 := by
  have h := c.valid
  unfold UInt32.isValidChar Nat.isValidChar at h
  rcases h with h | h <;> simp [Char.toNat] <;> omega

theorem utf8DecodeAux_encodeCp_append (n : Nat) (hn : n < 0x110000) (l : List Nat) :
    utf8DecodeAux (utf8EncodeCp n ++ l) 0 0 =
      (utf8DecodeAux l 0 0).map (fun t => n :: t) := by
  by_cases h1 : n < 0x80
  · rw [utf8EncodeCp, if_pos h1, List.singleton_append, utf8DecodeAux, if_pos h1]
  · by_cases h2 : n < 0x800
    · rw [utf8EncodeCp, if_neg h1, if_pos h2, List.cons_append, List.cons_append,
        List.nil_append, utf8DecodeAux,
        if_neg (by omega : ¬ (0xC0 + n / 64 < 0x80)),
        if_neg (by omega : ¬ (0xC0 + n / 64 < 0xC0)),
        if_pos (by omega : 0xC0 + n / 64 < 0xE0), utf8DecodeAux,
        if_pos (by omega : 0x80 ≤ 0x80 + n % 64 ∧ 0x80 + n % 64 < 0xC0)]
      have ev : (0xC0 + n / 64 - 0xC0) * 64 + (0x80 + n % 64 - 0x80) = n := by omega
      rw [ev]
    · by_cases h3 : n < 0x10000
      · rw [utf8EncodeCp, if_neg h1, if_neg h2, if_pos h3, List.cons_append, List.cons_append,
          List.cons_append, List.nil_append, utf8DecodeAux,
          if_neg (by omega : ¬ (0xE0 + n / 4096 < 0x80)),
          if_neg (by omega : ¬ (0xE0 + n / 4096 < 0xC0)),
          if_neg (by omega : ¬ (0xE0 + n / 4096 < 0xE0)),
          if_pos (by omega : 0xE0 + n / 4096 < 0xF0), utf8DecodeAux,
          if_pos (by omega : 0x80 ≤ 0x80 + n / 64 % 64 ∧ 0x80 + n / 64 % 64 < 0xC0),
          utf8DecodeAux,
          if_pos (by omega : 0x80 ≤ 0x80 + n % 64 ∧ 0x80 + n % 64 < 0xC0)]
        have ev : ((0xE0 + n / 4096 - 0xE0) * 64 + (0x80 + n / 64 % 64 - 0x80)) * 64 +
            (0x80 + n % 64 - 0x80) = n := by omega
        rw [ev]
      · rw [utf8EncodeCp, if_neg h1, if_neg h2, if_neg h3, List.cons_append, List.cons_append,
          List.cons_append, List.cons_append, List.nil_append, utf8DecodeAux,
          if_neg (by omega : ¬ (0xF0 + n / 262144 < 0x80)),
          if_neg (by omega : ¬ (0xF0 + n / 262144 < 0xC0)),
          if_neg (by omega : ¬ (0xF0 + n / 262144 < 0xE0)),
          if_neg (by omega : ¬ (0xF0 + n / 262144 < 0xF0)),
          if_pos (by omega : 0xF0 + n / 262144 < 0xF8), utf8DecodeAux,
          if_pos (by omega : 0x80 ≤ 0x80 + n / 4096 % 64 ∧ 0x80 + n / 4096 % 64 < 0xC0),
          utf8DecodeAux,
          if_pos (by omega : 0x80 ≤ 0x80 + n / 64 % 64 ∧ 0x80 + n / 64 % 64 < 0xC0),
          utf8DecodeAux,
          if_pos (by omega : 0x80 ≤ 0x80 + n % 64 ∧ 0x80 + n % 64 < 0xC0)]
        have ev : (((0xF0 + n / 262144 - 0xF0) * 64 + (0x80 + n / 4096 % 64 - 0x80)) * 64 +
            (0x80 + n / 64 % 64 - 0x80)) * 64 + (0x80 + n % 64 - 0x80) = n := by omega
        rw [ev]

theorem utf8DecodeCps_utf8Encode (s : List Char) :
    utf8DecodeCps (utf8Encode s) = some (s.map Char.toNat) := by
  unfold utf8DecodeCps
  induction s with
  | nil => rfl
  | cons c cs ih =>
    simp only [utf8Encode, List.map_cons, List.flatMap_cons, List.append_assoc]
    rw [show (cs.map Char.toNat).flatMap utf8EncodeCp = utf8Encode cs from rfl,
      utf8DecodeAux_encodeCp_append _ (char_toNat_lt c), ih]
    rfl

theorem codepointsToChars_map_toNat (s : List Char) :
    codepointsToChars (s.map Char.toNat) = some s := by
  induction s with
  | nil => rfl
  | cons c cs ih =>
    have h := c.valid
    unfold UInt32.isValidChar Nat.isValidChar at h
    have hv : c.toNat < 0xD800 ∨ (0xDFFF < c.toNat ∧ c.toNat < 0x110000) := by
      rcases h with h | h <;> simp [Char.toNat] <;> omega
    rw [List.map_cons, codepointsToChars, if_pos hv, ih, Option.map_some', Char.ofNat_toNat]

theorem decodeMessage_encodeMessage (s : String) : decodeMessage (encodeMessage s) = some s := by
  rw [encodeMessage, decodeMessage, utf8DecodeCps_utf8Encode, Option.some_bind,
    codepointsToChars_map_toNat, Option.map_some']

theorem encodeMessage_injective : Function.Injective encodeMessage := by
  intro a b h
  have ha := decodeMessage_encodeMessage a
  rw [h, decodeMessage_encodeMessage b] at ha
  exact (Option.some_injective _ ha).symm

theorem sha3_256_byte_lt (msg : List Nat) : ∀ b ∈ sha3_256 msg, b < 256 := by
  intro b hb
  simp only [sha3_256, List.mem_map] at hb
  obtain ⟨i, _, rfl⟩ := hb
  exact Nat.mod_lt _ (by norm_num)

theorem intFromBytesLE_lt (bs : List Nat) (h : ∀ b ∈ bs, b < 256) :
    intFromBytesLE bs < 256 ^ bs.length := by
  induction bs with
  | nil => simp [intFromBytesLE]
  | cons b t ih =>
    have hb := h b (List.mem_cons_self b t)
    have ht := ih (fun x hx => h x (List.mem_cons_of_mem _ hx))
    simp only [intFromBytesLE, List.foldr_cons, List.length_cons] at *
    calc b + 256 * t.foldr (fun b acc => b + 256 * acc) 0
        < 256 * (t.foldr (fun b acc => b + 256 * acc) 0 + 1) := by omega
      _ ≤ 256 * 256 ^ t.length := Nat.mul_le_mul_left _ ht
      _ = 256 ^ (t.length + 1) := by rw [Nat.pow_succ, Nat.mul_comm]

theorem generate_uint64_key_lt_helper (input : String) :
    KeyGenerator.generate_uint64_key input < 2 ^ 64 := by
  unfold KeyGenerator.generate_uint64_key
  have h1 : ∀ b ∈ (sha3_256 (utf8Encode input.data)).take 8, b < 256 :=
    fun b hb => sha3_256_byte_lt _ b (List.take_subset _ _ hb)
  have h2 := intFromBytesLE_lt _ h1
  have h3 : ((sha3_256 (utf8Encode input.data)).take 8).length ≤ 8 :=
    List.length_take_le 8 _
  calc intFromBytesLE ((sha3_256 (utf8Encode input.data)).take 8)
      < 256 ^ ((sha3_256 (utf8Encode input.data)).take 8).length := h2
    _ ≤ 256 ^ 8 := Nat.pow_le_pow_right (by norm_num) h3
    _ = 2 ^ 64 := by norm_num

theorem pyInt?_digits (ds : List Char) (h0 : ds ≠ []) (h1 : ds.all Char.isDigit) :
    pyInt? ds = some (Int.ofNat (decimalVal ds)) := by
  match ds, h0 with
  | c :: cs, _ =>
    have hc : c.isDigit := by
      rw [List.all_cons, Bool.and_eq_true] at h1
      exact h1.1
    have hne : ¬ c = '-' := by
      intro he
      rw [he] at hc
      exact absurd hc (by decide)
    rw [pyInt?, if_neg hne, if_pos h1]

theorem pyHexCore?_0x (hexs : List Char) (h0 : hexs ≠ []) (h1 : hexs.all isHexDigitC) :
    pyHexCore? ('0' :: 'x' :: hexs) = some (hexVal hexs) := by
  rw [pyHexCore?, if_pos (Or.inl rfl), if_pos ⟨h0, h1⟩]

theorem pyIntBase16?_0x (hexs : List Char) (h0 : hexs ≠ []) (h1 : hexs.all isHexDigitC) :
    pyIntBase16? ('0' :: 'x' :: hexs) = some (Int.ofNat (hexVal hexs)) := by
  rw [pyIntBase16?, if_neg (by decide : ¬ ('0' : Char) = '-'),
    pyHexCore?_0x hexs h0 h1, Option.map_some']

theorem applyOp_state (st : SymbolTransactionCreator) (op : BuilderOp) (now : Int) :
    (applyOp st op now).2 = st := by
  cases op <;> rfl

theorem applyOp_fee (st : SymbolTransactionCreator) (op : BuilderOp) (now : Int) :
    outputFee (applyOp st op now).1 = none ∨
      outputFee (applyOp st op now).1 = some st.max_fee := by
  cases op <;> first | exact Or.inr rfl | exact Or.inl rfl

theorem applyOp_deadline (st : SymbolTransactionCreator) (op : BuilderOp) (now : Int) :
    outputDeadline (applyOp st op now).1 = none ∨
      outputDeadline (applyOp st op now).1 = some (st.get_deadline now) := by
  cases op <;> first | exact Or.inr rfl | exact Or.inl rfl

/-- A concrete builder configuration used by witness instantiations. -/
def creatorExample : SymbolTransactionCreator :=
  { network_name := "testnet",
    node_url := "http://localhost:3000",
    epoch_adjustment := 1637848847,
    max_fee := 2000000,
    expiration_hour := 2,
    explorer_url := "https://testnet.symbol.fyi/transactions/" }

/-- C1: for every configuration with `expiration_hours ≥ 0`, every
`create_*` operation stamps the deadline
`(now + expiration_hours * 3600 - epoch_adjustment) * 1000` milliseconds,
where `now` is the whole-second wall clock at build time, and the deadline
strictly increases as `now` advances. -/
theorem create_deadline_formula_monotone (st : SymbolTransactionCreator)
    (_hh : 0 ≤ st.expiration_hour) :
    (∀ now, st.get_deadline now
        = (now + st.expiration_hour * 3600 - st.epoch_adjustment) * 1000)
    ∧ (∀ pk addr mos msg now,
        (st.create_transfer_transaction pk addr mos msg now).1.deadline = st.get_deadline now)
    ∧ (∀ pk addr mos msgs now,
        (st.create_aggregate_transfer_transaction pk addr mos msgs now).1.deadline
          = st.get_deadline now)
    ∧ (∀ pk dv du t s r rv now,
        (st.create_mosaic_definition_transaction pk dv du t s r rv now).1.deadline
          = st.get_deadline now)
    ∧ (∀ pk mid su now,
        (st.create_mosaic_supply_change_transaction pk mid su now).1.deadline
          = st.get_deadline now)
    ∧ (∀ pk tgt tmid k v now,
        (st.create_mosaic_metadata_transaction pk tgt tmid k v now).1.deadline
          = st.get_deadline now)
    ∧ (∀ now1 now2 : Int, now1 < now2 → st.get_deadline now1 < st.get_deadline now2) := by
  refine ⟨fun _ => rfl, fun _ _ _ _ _ => rfl, fun _ _ _ _ _ => rfl,
    fun _ _ _ _ _ _ _ _ => rfl, fun _ _ _ _ => rfl, fun _ _ _ _ _ _ => rfl, ?_⟩
  intro now1 now2 h
  unfold SymbolTransactionCreator.get_deadline
  omega

/-- Witness for C1 at a concrete configuration and two clock values. -/
theorem create_deadline_formula_monotone_witness :
    (0 : Int) ≤ creatorExample.expiration_hour
    ∧ creatorExample.get_deadline 1700000000 < creatorExample.get_deadline 1700000001 :=
  ⟨by decide,
   (create_deadline_formula_monotone creatorExample (by decide)).2.2.2.2.2.2
     1700000000 1700000001 (by decide)⟩

/-- C5: the metadata builder always returns an aggregate-complete
transaction wrapping exactly one embedded mosaic-metadata transaction —
never a bare metadata transaction — and that embedded transaction's
scoped metadata key is `KeyGenerator.generate_uint64_key` of the caller's
key string. -/
theorem mosaic_metadata_always_aggregate (st : SymbolTransactionCreator) (pk : PublicKey)
    (tgt : Address) (tmid : Nat) (key value : String) (now : Int) :
    ((st.create_mosaic_metadata_transaction pk tgt tmid key value now).1.transactions
        = [.mosaicMetadata
            { signer_public_key := pk, target_address := tgt, target_mosaic_id := tmid,
              scoped_metadata_key := KeyGenerator.generate_uint64_key key,
              value := encodeMessage value,
              value_size_delta := (encodeMessage value).length }])
    ∧ ((st.create_mosaic_metadata_transaction pk tgt tmid key value now).1.transactions.length
        = 1)
    ∧ ((st.create_mosaic_metadata_transaction pk tgt tmid key value now).1.transactions_hash
        = SymbolFacade.hash_embedded_transactions
            (st.create_mosaic_metadata_transaction pk tgt tmid key value now).1.transactions) :=
  ⟨rfl, rfl, rfl⟩

/-- C6: the mosaic-definition flag bitset is the bitwise or of exactly the
flag constants whose booleans are true, the all-false combination encodes
to zero, each flag's bit depends only on its own boolean, and divisibility
and duration pass through unchanged. -/
theorem mosaic_definition_flags_bitset (st : SymbolTransactionCreator) (pk : PublicKey)
    (dv du : Nat) (t s r rv : Bool) (now : Int) :
    ((st.create_mosaic_definition_transaction pk dv du t s r rv now).1.flags
        = ((if t then MosaicFlags.TRANSFERABLE else 0)
            ||| (if s then MosaicFlags.SUPPLY_MUTABLE else 0)
            ||| (if r then MosaicFlags.RESTRICTABLE else 0)
            ||| (if rv then MosaicFlags.REVOKABLE else 0)))
    ∧ ((st.create_mosaic_definition_transaction pk dv du false false false false now).1.flags
        = 0)
    ∧ ((st.create_mosaic_definition_transaction pk dv du t s r rv now).1.flags
          &&& MosaicFlags.TRANSFERABLE = (if t then MosaicFlags.TRANSFERABLE else 0))
    ∧ ((st.create_mosaic_definition_transaction pk dv du t s r rv now).1.flags
          &&& MosaicFlags.SUPPLY_MUTABLE = (if s then MosaicFlags.SUPPLY_MUTABLE else 0))
    ∧ ((st.create_mosaic_definition_transaction pk dv du t s r rv now).1.flags
          &&& MosaicFlags.RESTRICTABLE = (if r then MosaicFlags.RESTRICTABLE else 0))
    ∧ ((st.create_mosaic_definition_transaction pk dv du t s r rv now).1.flags
          &&& MosaicFlags.REVOKABLE = (if rv then MosaicFlags.REVOKABLE else 0))
    ∧ ((st.create_mosaic_definition_transaction pk dv du t s r rv now).1.divisibility = dv)
    ∧ ((st.create_mosaic_definition_transaction pk dv du t s r rv now).1.duration = du) := by
  cases t <;> cases s <;> cases r <;> cases rv <;>
    refine ⟨rfl, rfl, ?_, ?_, ?_, ?_, rfl, rfl⟩ <;>
    (simp [SymbolTransactionCreator.create_mosaic_definition_transaction, MosaicFlags.NONE,
      MosaicFlags.TRANSFERABLE, MosaicFlags.SUPPLY_MUTABLE, MosaicFlags.RESTRICTABLE,
      MosaicFlags.REVOKABLE] <;> decide)

/-- C7: `sign_and_announce_transaction` fails with `AnnounceError` exactly
when the node's response status is not 202, never returning a hash in
that case, and on 202 returns the content hash of the signed
transaction. -/
theorem sign_and_announce_status_contract (st : SymbolTransactionCreator) (tx : Transaction)
    (kp : KeyPair) (status : Nat) :
    (((st.sign_and_announce_transaction tx kp status).1
        = .error { status_code := status }) ↔ status ≠ 202)
    ∧ (((st.sign_and_announce_transaction tx kp status).1
        = .ok (SymbolFacade.hash_transaction tx)) ↔ status = 202) := by
  unfold SymbolTransactionCreator.sign_and_announce_transaction
  by_cases h : status = 202 <;> simp [h]

/-- C2: `create_aggregate_transfer_transaction` on N messages yields one
aggregate whose embedded transfers are exactly the N messages in input
order, all sharing the signer, recipient and mosaics, with
`transactions_hash` computed over that ordered sequence; across builds
with the same signer, recipient and mosaics, the hash agrees exactly when
the message sequences agree (so identical sequences reproduce it and any
change of content or order changes it). -/
theorem aggregate_transfer_inner_order_hash (st : SymbolTransactionCreator) (pk : PublicKey)
    (addr : Address) (mos : List Mosaic) (msgs : List String) (now : Int) :
    ((st.create_aggregate_transfer_transaction pk addr mos msgs now).1.transactions.length
        = msgs.length)
    ∧ ((st.create_aggregate_transfer_transaction pk addr mos msgs now).1.transactions
        = msgs.map (fun m => EmbeddedTransaction.transfer
            { signer_public_key := pk, recipient_address := addr, mosaics := mos,
              message := encodeMessage m }))
    ∧ ((st.create_aggregate_transfer_transaction pk addr mos msgs now).1.transactions_hash
        = SymbolFacade.hash_embedded_transactions
            (st.create_aggregate_transfer_transaction pk addr mos msgs now).1.transactions)
    ∧ (∀ (st' : SymbolTransactionCreator) (now' : Int) (msgs' : List String),
        (st'.create_aggregate_transfer_transaction pk addr mos msgs' now').1.transactions_hash
            = (st.create_aggregate_transfer_transaction pk addr mos msgs now).1.transactions_hash
          ↔ msgs' = msgs) := by
  refine ⟨by simp [SymbolTransactionCreator.create_aggregate_transfer_transaction], rfl, rfl, ?_⟩
  intro st' now' msgs'
  constructor
  · intro h
    have hf : Function.Injective (fun m : String => EmbeddedTransaction.transfer
        { signer_public_key := pk, recipient_address := addr, mosaics := mos,
          message := encodeMessage m }) := by
      intro a b hab
      simp only [EmbeddedTransaction.transfer.injEq, EmbeddedTransferTransaction.mk.injEq] at hab
      exact encodeMessage_injective hab.2.2.2
    have h' : msgs'.map (fun m => EmbeddedTransaction.transfer
        { signer_public_key := pk, recipient_address := addr, mosaics := mos,
          message := encodeMessage m })
        = msgs.map (fun m => EmbeddedTransaction.transfer
        { signer_public_key := pk, recipient_address := addr, mosaics := mos,
          message := encodeMessage m }) := h
    exact List.map_injective_iff.mpr hf h'
  · rintro rfl
    rfl

/-- C3: every message or metadata value the builder encodes is exactly one
zero byte followed by the UTF-8 bytes of the text, and stripping that
first byte then UTF-8-decoding recovers the original string — for the
transfer message, each embedded transfer message, and the metadata
value. -/
theorem message_marker_byte_roundtrip (st : SymbolTransactionCreator) (pk : PublicKey)
    (addr : Address) (mos : List Mosaic) (message : String) (messages : List String)
    (tgt : Address) (tmid : Nat) (key value : String) (now : Int) :
    ((st.create_transfer_transaction pk addr mos message now).1.message
        = 0 :: utf8Encode message.data)
    ∧ (decodeMessage ((st.create_transfer_transaction pk addr mos message now).1.message)
        = some message)
    ∧ ((st.create_aggregate_transfer_transaction pk addr mos messages now).1.transactions
        = messages.map (fun m => EmbeddedTransaction.transfer
            { signer_public_key := pk, recipient_address := addr, mosaics := mos,
              message := 0 :: utf8Encode m.data }))
    ∧ (messages.map (fun m => decodeMessage (0 :: utf8Encode m.data)) = messages.map some)
    ∧ (∃ e : EmbeddedMosaicMetadataTransaction,
        (st.create_mosaic_metadata_transaction pk tgt tmid key value now).1.transactions
            = [.mosaicMetadata e]
        ∧ e.value = 0 :: utf8Encode value.data
        ∧ e.value_size_delta = (0 :: utf8Encode value.data).length
        ∧ decodeMessage e.value = some value) := by
  refine ⟨rfl, decodeMessage_encodeMessage message, rfl, ?_, ?_⟩
  · induction messages with
    | nil => rfl
    | cons m ms ih =>
      simp only [List.map_cons, ih]
      rw [show (0 :: utf8Encode m.data) = encodeMessage m from rfl,
        decodeMessage_encodeMessage m]
  · exact ⟨_, rfl, rfl, rfl, decodeMessage_encodeMessage value⟩

/-- C9: constructing the builder with a network name that is neither
`mainnet` nor `testnet` (for example `devnet`) fails with
`ConfigurationError`, and with exactly those two names it succeeds; the
constructor is a pure function of its arguments, so no network round trip
happens before the check. -/
theorem init_network_name_validation (node_url : String) (epoch : Int) (max_fee : Nat)
    (hour : Int) :
    (∀ name : String,
      (∃ e, SymbolTransactionCreator.init name node_url epoch max_fee hour = .error e)
        ↔ (name ≠ "mainnet" ∧ name ≠ "testnet"))
    ∧ (SymbolTransactionCreator.init "devnet" node_url epoch max_fee hour
        = .error { message := "Unknown network name." })
    ∧ (∃ st, SymbolTransactionCreator.init "mainnet" node_url epoch max_fee hour = .ok st)
    ∧ (∃ st, SymbolTransactionCreator.init "testnet" node_url epoch max_fee hour = .ok st) := by
  refine ⟨?_, rfl, ⟨_, rfl⟩, ⟨_, rfl⟩⟩
  intro name
  unfold SymbolTransactionCreator.init
  by_cases h1 : name = "mainnet"
  · simp [h1]
  · by_cases h2 : name = "testnet" <;> simp [h1, h2]

/-- C10: no builder call mutates the configuration — the state after any
sequence of calls is the constructed state — and therefore every
transaction of the sequence carries the constructor's `max_fee` and a
deadline computed from the constructor's `epoch_adjustment` and
`expiration_hour` at that call's clock value. -/
theorem builder_state_immutable_across_calls (st : SymbolTransactionCreator)
    (ops : List (BuilderOp × Int)) :
    ((runOps st ops).2 = st)
    ∧ (∀ out ∈ (runOps st ops).1,
        outputFee out = none ∨ outputFee out = some st.max_fee)
    ∧ List.Forall₂ (fun (p : BuilderOp × Int) out =>
        outputDeadline out = none ∨ outputDeadline out = some (st.get_deadline p.2))
      ops (runOps st ops).1 := by
  induction ops with
  | nil => exact ⟨rfl, by simp [runOps], by simp [runOps]⟩
  | cons p rest ih =>
    obtain ⟨ihs, ihf, ihd⟩ := ih
    refine ⟨?_, ?_, ?_⟩
    · simp only [runOps, applyOp_state, ihs]
    · intro out hout
      simp only [runOps, applyOp_state] at hout
      rcases List.mem_cons.mp hout with h | h
      · subst h
        exact applyOp_fee st p.1 p.2
      · exact ihf out h
    · simp only [runOps, applyOp_state]
      exact List.Forall₂.cons (applyOp_deadline st p.1 p.2) ihd

/-- The concrete call sequence used by the C10 witness: a transfer
followed by an announcement. -/
def opsExample : List (BuilderOp × Int) :=
  [(BuilderOp.transferOp { key := 1 } { addr := 2 } [] "hello symbol", 1700000000),
   (BuilderOp.announceOp (.transfer
      (creatorExample.create_transfer_transaction { key := 1 } { addr := 2 } []
        "hello symbol" 1700000000).1) { private_key := 3, public_key := { key := 1 } } 202,
    1700000060)]

/-- Witness for C10: the concrete call sequence leaves the configuration
unchanged, and its first output's fee is the configured maximum fee. -/
theorem builder_state_immutable_witness :
    ((runOps creatorExample opsExample).2 = creatorExample)
    ∧ (outputFee (BuilderOutput.transferOut
          (creatorExample.create_transfer_transaction { key := 1 } { addr := 2 } []
            "hello symbol" 1700000000).1) = none
        ∨ outputFee (BuilderOutput.transferOut
          (creatorExample.create_transfer_transaction { key := 1 } { addr := 2 } []
            "hello symbol" 1700000000).1) = some creatorExample.max_fee) :=
  ⟨(builder_state_immutable_across_calls creatorExample opsExample).1,
   (builder_state_immutable_across_calls creatorExample opsExample).2.1 _
     (List.mem_cons_self _ _)⟩

/-- C8 (amended): the network-properties queries fail with
`NetworkQueryError` exactly when the GET status differs from 200 — not
merely when it is outside the 2xx range — and on status 200 the epoch
adjustment parses as a decimal integer after dropping the `s` unit suffix
and the currency mosaic id parses base 16 after dropping the apostrophe
group separators. -/
theorem network_query_error_iff_status_ne_200 (url : String) (status : Nat)
    (body : NetworkPropertiesResponse) (digits hexs : List Char)
    (hd0 : digits ≠ []) (hd1 : digits.all Char.isDigit)
    (hh0 : hexs ≠ []) (hh1 : hexs.all isHexDigitC)
    (hb1 : body.epochAdjustment.data.filter (fun c => c ≠ 's') = digits)
    (hb2 : body.currencyMosaicId.data.filter (fun c => c ≠ quoteChar) = '0' :: 'x' :: hexs) :
    ((CatapultRESTAPI.get_epoch_adjustment { node_url := url } status body
        = .error (.networkQueryError status)) ↔ status ≠ 200)
    ∧ ((CatapultRESTAPI.get_currency_mosaic_id { node_url := url } status body
        = .error (.networkQueryError status)) ↔ status ≠ 200)
    ∧ (CatapultRESTAPI.get_epoch_adjustment { node_url := url } 200 body
        = .ok (Int.ofNat (decimalVal digits)))
    ∧ (CatapultRESTAPI.get_currency_mosaic_id { node_url := url } 200 body
        = .ok (Int.ofNat (hexVal hexs))) := by
  have he : CatapultRESTAPI.get_epoch_adjustment { node_url := url } 200 body
      = .ok (Int.ofNat (decimalVal digits)) := by
    unfold CatapultRESTAPI.get_epoch_adjustment
    rw [if_neg (by simp), hb1, pyInt?_digits digits hd0 hd1]
  have hc : CatapultRESTAPI.get_currency_mosaic_id { node_url := url } 200 body
      = .ok (Int.ofNat (hexVal hexs)) := by
    unfold CatapultRESTAPI.get_currency_mosaic_id
    rw [if_neg (by simp), hb2, pyIntBase16?_0x hexs hh0 hh1]
  refine ⟨?_, ?_, he, hc⟩
  · by_cases h : status = 200
    · subst h
      rw [he]
      simp
    · unfold CatapultRESTAPI.get_epoch_adjustment
      rw [if_pos h]
      simp [h]
  · by_cases h : status = 200
    · subst h
      rw [hc]
      simp
    · unfold CatapultRESTAPI.get_currency_mosaic_id
      rw [if_pos h]
      simp [h]

/-- Witness for C8's amended theorem: the spec's HTTP 503 scenario on a
well-formed body. -/
theorem network_query_error_iff_witness :
    (CatapultRESTAPI.get_epoch_adjustment { node_url := "http://localhost:3000" } 503
        { epochAdjustment := "1637848847s", currencyMosaicId := "0x3A8416DB2D53B6C8" }
      = .error (.networkQueryError 503)) ↔ (503 : Nat) ≠ 200 :=
  (network_query_error_iff_status_ne_200 "http://localhost:3000" 503
    { epochAdjustment := "1637848847s", currencyMosaicId := "0x3A8416DB2D53B6C8" }
    "1637848847".data "3A8416DB2D53B6C8".data (by decide) (by decide) (by decide) (by decide)
    (by decide) (by decide)).1

/-- Counterexample to C8 as stated: at HTTP status 201 — a 2xx success
status — both queries still fail with `NetworkQueryError`, because the
code requires status 200 exactly rather than any 2xx status. -/
theorem network_query_2xx_counterexample :
    (CatapultRESTAPI.get_epoch_adjustment { node_url := "http://localhost:3000" } 201
        { epochAdjustment := "1637848847s", currencyMosaicId := "0x3A8416DB2D53B6C8" }
      = .error (.networkQueryError 201))
    ∧ (CatapultRESTAPI.get_currency_mosaic_id { node_url := "http://localhost:3000" } 201
        { epochAdjustment := "1637848847s", currencyMosaicId := "0x3A8416DB2D53B6C8" }
      = .error (.networkQueryError 201))
    ∧ ((200 : Nat) ≤ 201 ∧ (201 : Nat) < 300) :=
  ⟨rfl, rfl, by omega⟩

/-- C4: `KeyGenerator.generate_uint64_key` is the pure function taking the
SHA3-256 digest of the input's UTF-8 bytes, truncated to its first 8
bytes read as a little-endian unsigned 64-bit integer (so the result
always fits in 64 bits), and it reproduces the reference vector quoted in
the source: the string `header` maps to 0xAD6D8491D21180E5. -/
theorem generate_uint64_key_pure_reference :
    (∀ input : String, KeyGenerator.generate_uint64_key input
        = intFromBytesLE ((sha3_256 (utf8Encode input.data)).take 8))
    ∧ (∀ input : String, KeyGenerator.generate_uint64_key input < 2 ^ 64)
    ∧ KeyGenerator.generate_uint64_key "header" = 0xAD6D8491D21180E5 :=
  ⟨fun _ => rfl, generate_uint64_key_lt_helper, by decide⟩
